import Mathlib

/-!
Shallow embedding of the merger-book matching and scoring engine
(`utils/matching_engine.py`, configuration constants from `utils/config.py`).

Python floats are modelled as rationals, Python dicts of known shape as
structures with `Option` fields (absent key = `none`), and Python exceptions
as `Except Unit`.  The three external numeric collaborators that are not part
of the matching module itself — `json.loads` from the standard library, the
sklearn TF-IDF/cosine pipeline, and the numpy correlation coefficient — are
parameters of the `MatchingEngine` structure; every theorem below quantifies
over them.
-/

deriving instance DecidableEq for Except

namespace MergerBook

/-- A Python value that is either a string or a list of strings, as can occur
in the `strategic_objectives` and `geographic_markets` fields of a company
record. -/
inductive StrOrList where
  | str (s : String)
  | list (l : List String)
deriving DecidableEq

/-- The `financial_metrics` field of a company record: either a string
(JSON-encoded, the persisted database shape) or some non-string structure
(the freshly extracted shape).  Only its string-ness and, for strings, the
success of `json.loads` are ever observed by the engine. -/
inductive FMVal where
  | str (s : String)
  | dict
deriving DecidableEq

/-- The `amount` entry of a `revenue_info` mapping: a string or a number. -/
inductive AmountVal where
  | str (s : String)
  | num (q : ℚ)
deriving DecidableEq

/-- The nested `revenue_info` mapping; `amount := none` models a dict without
an `amount` key (including the empty dict default). -/
structure RevenueInfo where
  amount : Option AmountVal := none
deriving DecidableEq

/-- A company record as consumed by the matching engine: the union of the
fields read by `_extract_matching_features` and `find_matches`.  `none`
models an absent dictionary key. -/
structure CompanyRecord where
  company_id : Option Int := none
  company_name : Option String := none
  industry_classification : Option String := none
  financial_metrics : Option FMVal := none
  strategic_objectives : Option StrOrList := none
  revenue : Option ℚ := none
  employee_count : Option ℚ := none
  geographic_markets : Option StrOrList := none
  revenue_info : Option RevenueInfo := none
  business_model : Option String := none
  key_products_services : Option (List String) := none
  technology_stack : Option (List String) := none
  target_customers : Option (List String) := none
  competitive_advantages : Option (List String) := none
deriving DecidableEq

/-- The canonical matching-feature record built by
`_extract_matching_features`.  `strategic_objectives` keeps the `StrOrList`
shape because in the nested input shape a string-typed field flows through
unchanged (the Python `isinstance(..., list)` check falls back to the same
dictionary). -/
structure MatchingFeatures where
  company_name : String := ""
  industry : String := ""
  business_model : String := ""
  revenue : ℚ := 0
  employee_count : ℚ := 0
  geographic_markets : List String := []
  products_services : List String := []
  technology_stack : List String := []
  strategic_objectives : StrOrList := StrOrList.list []
  target_customers : List String := []
  competitive_advantages : List String := []
deriving DecidableEq

/-- The similarity breakdown retained per match (`_get_similarity_factors`). -/
structure SimilarityFactors where
  industry_similarity : ℚ
  business_similarity : ℚ
  geographic_similarity : ℚ
  size_similarity : ℚ
  strategic_similarity : ℚ
deriving DecidableEq

/-- One entry of the list returned by `find_matches`. -/
structure Match where
  candidate_company : CompanyRecord
  match_score : ℚ
  match_type : String
  similarity_factors : SimilarityFactors
deriving DecidableEq

/-- One row of the category-dependent weight table of
`_calculate_match_score`. -/
structure Weights where
  industry : ℚ
  business : ℚ
  geographic : ℚ
  size : ℚ
  strategic : ℚ
deriving DecidableEq

/-- Weights applied to horizontal matches. -/
def horizontal_weights : Weights :=
  { industry := 3/10, business := 1/5, geographic := 1/5, size := 1/10, strategic := 1/5 }

/-- Weights applied to vertical matches. -/
def vertical_weights : Weights :=
  { industry := 1/10, business := 3/10, geographic := 1/5, size := 1/10, strategic := 3/10 }

/-- The matching engine.  `min_match_score` and `max_matches` default to the
`Config.MIN_MATCH_SCORE = 0.3` and `Config.MAX_MATCHES_PER_QUERY = 50`
constants read in `__init__`.  `json_loads` models Python `json.loads` on the
strings the engine feeds it: `none` is a raised decoding error, `some none` a
successfully parsed non-list value, `some (some l)` a parsed JSON array of
strings.  `tfidf_cosine` models the fitted `TfidfVectorizer` plus
`cosine_similarity` applied to a two-document corpus, and `corr_abs` models
`abs(np.corrcoef(column, scores)[0, 1])` with `nan` replaced by `0`. -/
structure MatchingEngine where
  min_match_score : ℚ := 3/10
  max_matches : ℕ := 50
  json_loads : String → Option (Option (List String))
  tfidf_cosine : String → String → ℚ
  corr_abs : List ℚ → List ℚ → ℚ

/-- The literal `'\x7b\x7d'` default handed to `json.loads` for a missing
persisted sub-field. -/
def jsonEmptyObject : String := "\x7b\x7d"

/-- `business_features.get(key, default)`: in the persisted branch
`business_features` is the empty dict, in the nested branch it is the company
record itself. -/
def bfGet {α : Type} (persisted : Bool) (field : Option α) (default : α) : α :=
  if persisted then default else field.getD default

/-- Python `str.lower()` (on the ASCII range exercised by the engine),
character-wise lowering. -/
def pyLower (s : String) : String := ⟨s.data.map Char.toLower⟩

/-- Python `str.strip()`: remove leading and trailing whitespace. -/
def pyStrip (s : String) : String :=
  ⟨((s.data.dropWhile Char.isWhitespace).reverse.dropWhile Char.isWhitespace).reverse⟩

/-- Python `str.split(sep)` for a one-character separator, on character
lists.  The empty string splits to `[""]`, matching Python. -/
def splitOnChar (sep : Char) : List Char → List (List Char)
  | [] => [[]]
  | c :: rest =>
    match splitOnChar sep rest with
    | [] => [[c]]
    | h :: t => if c = sep then [] :: h :: t else (c :: h) :: t

/-- `splitOnChar` lifted to strings. -/
def pySplitChar (sep : Char) (s : String) : List String :=
  (splitOnChar sep s.data).map (fun l => String.mk l)

/-- Python `str.replace(needle, repl)` for a one-character needle: every
occurrence is replaced. -/
def replaceChar (needle : Char) (repl : List Char) : List Char → List Char
  | [] => []
  | c :: rest =>
    if c = needle then repl ++ replaceChar needle repl rest
    else c :: replaceChar needle repl rest

/-- `replaceChar` lifted to strings. -/
def pyReplace (needle : Char) (repl : String) (s : String) : String :=
  ⟨replaceChar needle repl.data s.data⟩

/-- Python `sep.join(list)`. -/
def pyJoin (sep : String) : List String → String
  | [] => ""
  | [s] => s
  | s :: rest => s ++ sep ++ pyJoin sep rest

/-- Numeric value of a run of decimal digit characters. -/
def digitsToNat (l : List Char) : ℕ :=
  l.foldl (fun n c => 10 * n + (c.toNat - ('0').toNat)) 0

/-- Unsigned decimal literal (`123`, `1.5`, `.5`, `5.`), as accepted by the
Python `float` constructor. -/
def parseUnsignedDecimal (t : String) : Option ℚ :=
  match pySplitChar ('.') t with
  | [a] =>
    if a ≠ "" ∧ a.data.all Char.isDigit then some (digitsToNat a.data : ℚ) else none
  | [a, b] =>
    if (a ≠ "" ∨ b ≠ "") ∧ a.data.all Char.isDigit ∧ b.data.all Char.isDigit then
      some ((digitsToNat a.data : ℚ) + (digitsToNat b.data : ℚ) / (10 : ℚ) ^ b.length)
    else none
  | _ => none

/-- Optionally signed decimal literal. -/
def parseSignedDecimal (t : String) : Option ℚ :=
  match t.data with
  | ('-') :: rest => (parseUnsignedDecimal (String.mk rest)).map (fun q => -q)
  | ('+') :: rest => parseUnsignedDecimal (String.mk rest)
  | _ => parseUnsignedDecimal t

/-- Optionally signed integer literal, for exponents. -/
def parseSignedInt (t : String) : Option ℤ :=
  let core (u : List Char) : Option ℤ :=
    if u ≠ [] ∧ u.all Char.isDigit then some (digitsToNat u : ℤ) else none
  match t.data with
  | ('-') :: rest => (core rest).map (fun z => -z)
  | ('+') :: rest => core rest
  | _ => core t.data

/-- Python `float(s)` on finite decimal literals with an optional exponent;
`none` models a raised `ValueError`.  (The special literals `inf` and `nan`
are not modelled: the engine only feeds this function currency strings after
symbol stripping.) -/
def pyFloat (s : String) : Option ℚ :=
  let t := pyLower (pyStrip s)
  match pySplitChar ('e') t with
  | [m] => parseSignedDecimal m
  | [m, ex] =>
    match parseSignedDecimal m, parseSignedInt ex with
    | some mq, some eq => some (mq * (10 : ℚ) ^ eq)
    | _, _ => none
  | _ => none

/-- `MatchingEngine._extract_revenue`: strip currency symbols and separators,
textually replace every `M` with `000000` and every `B` with `000000000`,
then parse as float; any failure yields `0.0`. -/
def MatchingEngine.extract_revenue (revenue_info : RevenueInfo) : ℚ :=
  match revenue_info.amount.getD (AmountVal.str "0") with
  | AmountVal.str s =>
    let s := pyReplace ('B') "000000000"
      (pyReplace ('M') "000000" (pyReplace (',') "" (pyReplace ('$') "" s)))
    (pyFloat s).getD 0
  | AmountVal.num q => q

/-- Python `' '.join(x)` where `x` is a list of strings or — in the odd
nested string case — a string, whose join iterates its characters. -/
def soJoin : StrOrList → String
  | StrOrList.list l => pyJoin " " l
  | StrOrList.str s => pyJoin " " (s.data.map (fun c => String.mk [c]))

/-- `MatchingEngine._extract_matching_features`: shape detection, JSON
decoding of persisted sub-fields, and field defaulting.  `Except.error ()`
models the exceptions the Python function can raise: a `json.loads` failure
on a string sub-field, `json.loads` applied to a list (`TypeError`), and
`.split(',')` applied to a truthy list-valued `geographic_markets`
(`AttributeError`).  In the nested shape a falsy (empty-string) markets field
flows through as the empty string, which every consumer iterates as an empty
character sequence; it is represented by the empty list. -/
def MatchingEngine.extract_matching_features (E : MatchingEngine)
    (company : CompanyRecord) : Except Unit MatchingFeatures := do
  let persisted : Bool :=
    match company.financial_metrics with
    | some (FMVal.str _) => true
    | _ => false
  let decodeSO (v : Option (Option (List String))) : Except Unit StrOrList :=
    match v with
    | none => Except.error ()
    | some (some l) => Except.ok (StrOrList.list l)
    | some none => Except.ok (StrOrList.list [])
  let strategic_objectives : StrOrList ←
    if persisted then
      match (match company.financial_metrics with
             | some (FMVal.str s) => E.json_loads s
             | _ => E.json_loads jsonEmptyObject) with
      | none => Except.error ()
      | some _ =>
        match company.strategic_objectives with
        | none => decodeSO (E.json_loads jsonEmptyObject)
        | some (StrOrList.str s) => decodeSO (E.json_loads s)
        | some (StrOrList.list _) => Except.error ()
    else
      Except.ok (company.strategic_objectives.getD (StrOrList.list []))
  let geographic_markets : List String ←
    match company.geographic_markets with
    | some (StrOrList.str s) =>
      if s ≠ "" then Except.ok (pySplitChar (',') s) else Except.ok []
    | some (StrOrList.list l) =>
      if l ≠ [] then Except.error () else Except.ok []
    | none => Except.ok []
  let revenue : ℚ :=
    let direct := company.revenue.getD 0
    if direct ≠ 0 then direct
    else MatchingEngine.extract_revenue
      (bfGet persisted company.revenue_info { amount := none })
  let employee_count : ℚ :=
    let direct := company.employee_count.getD 0
    if direct ≠ 0 then direct else bfGet persisted company.employee_count 0
  let industry : String :=
    company.industry_classification.getD
      (bfGet persisted company.industry_classification "")
  Except.ok
    { company_name := company.company_name.getD ""
      industry := industry
      business_model := bfGet persisted company.business_model ""
      revenue := revenue
      employee_count := employee_count
      geographic_markets := geographic_markets
      products_services := bfGet persisted company.key_products_services []
      technology_stack := bfGet persisted company.technology_stack []
      strategic_objectives := strategic_objectives
      target_customers := bfGet persisted company.target_customers []
      competitive_advantages := bfGet persisted company.competitive_advantages [] }

/-- The fixed related-industry clusters of
`_calculate_industry_similarity`, each cluster being
`[main_industry] + related`. -/
def related_industries : List (List String) :=
  [["technology", "software", "fintech", "artificial intelligence", "saas"],
   ["financial services", "fintech", "banking", "insurance"],
   ["healthcare", "biotech", "pharmaceutical", "medical"],
   ["retail", "e-commerce", "consumer goods", "marketplace"]]

/-- `MatchingEngine._calculate_industry_similarity`. -/
def MatchingEngine.calculate_industry_similarity
    (features1 features2 : MatchingFeatures) : ℚ :=
  let industry1 := pyLower features1.industry
  let industry2 := pyLower features2.industry
  if industry1 = "" ∨ industry2 = "" then 1/2
  else if industry1 = industry2 then 1
  else if related_industries.any
      (fun cluster => cluster.contains industry1 && cluster.contains industry2) then 7/10
  else 1/5

/-- `MatchingEngine._calculate_business_similarity`: blank documents give the
neutral 0.5, otherwise the TF-IDF cosine of the two concatenated documents. -/
def MatchingEngine.calculate_business_similarity (E : MatchingEngine)
    (features1 features2 : MatchingFeatures) : ℚ :=
  let text1 := pyJoin " "
    [features1.business_model,
     pyJoin " " features1.products_services,
     pyJoin " " features1.competitive_advantages]
  let text2 := pyJoin " "
    [features2.business_model,
     pyJoin " " features2.products_services,
     pyJoin " " features2.competitive_advantages]
  if pyStrip text1 = "" ∨ pyStrip text2 = "" then 1/2
  else E.tfidf_cosine text1 text2

/-- The lower-cased, trimmed market set of a feature record, as a
duplicate-free list (Python set comprehension). -/
def marketSet (markets : List String) : List String :=
  (markets.map (fun m => pyStrip (pyLower m))).dedup

/-- `MatchingEngine._calculate_geographic_similarity`. -/
def MatchingEngine.calculate_geographic_similarity
    (features1 features2 : MatchingFeatures) : ℚ :=
  let markets1 := marketSet features1.geographic_markets
  let markets2 := marketSet features2.geographic_markets
  if markets1 = [] ∨ markets2 = [] then 1/2
  else
    let intersection := (markets1.filter (fun m => markets2.contains m)).length
    let union := ((markets1 ++ markets2).dedup).length
    if union = 0 then 1/2
    else
      let jaccard_sim : ℚ := (intersection : ℚ) / (union : ℚ)
      if intersection = 0 ∧ 0 < markets1.length ∧ 0 < markets2.length then 7/10
      else jaccard_sim

/-- `MatchingEngine._calculate_size_similarity`. -/
def MatchingEngine.calculate_size_similarity
    (features1 features2 : MatchingFeatures) : ℚ :=
  let revenue1 := features1.revenue
  let revenue2 := features2.revenue
  let employees1 := features1.employee_count
  let employees2 := features2.employee_count
  if revenue1 = 0 ∧ revenue2 = 0 ∧ employees1 = 0 ∧ employees2 = 0 then 1/2
  else
    let revenue_sim : ℚ :=
      if 0 < revenue1 ∧ 0 < revenue2 then min revenue1 revenue2 / max revenue1 revenue2
      else 1/2
    let employee_sim : ℚ :=
      if 0 < employees1 ∧ 0 < employees2 then min employees1 employees2 / max employees1 employees2
      else 1/2
    (revenue_sim + employee_sim) / 2

/-- `MatchingEngine._calculate_strategic_similarity`. -/
def MatchingEngine.calculate_strategic_similarity (E : MatchingEngine)
    (features1 features2 : MatchingFeatures) : ℚ :=
  let text1 := pyJoin " "
    [soJoin features1.strategic_objectives,
     pyJoin " " features1.target_customers]
  let text2 := pyJoin " "
    [soJoin features2.strategic_objectives,
     pyJoin " " features2.target_customers]
  if pyStrip text1 = "" ∨ pyStrip text2 = "" then 1/2
  else E.tfidf_cosine text1 text2

/-- `MatchingEngine._determine_match_type`. -/
def MatchingEngine.determine_match_type
    (_features1 _features2 : MatchingFeatures) (industry_similarity : ℚ) : String :=
  if 7/10 ≤ industry_similarity then "horizontal" else "vertical"

/-- `MatchingEngine._calculate_match_score`: the surrounding `try` catches
any exception raised by feature extraction and degrades to
`(0.0, 'unknown')`. -/
def MatchingEngine.calculate_match_score (E : MatchingEngine)
    (company1 company2 : CompanyRecord) : ℚ × String :=
  match E.extract_matching_features company1, E.extract_matching_features company2 with
  | Except.ok features1, Except.ok features2 =>
    let industry_sim := MatchingEngine.calculate_industry_similarity features1 features2
    let business_sim := E.calculate_business_similarity features1 features2
    let geographic_sim := MatchingEngine.calculate_geographic_similarity features1 features2
    let size_sim := MatchingEngine.calculate_size_similarity features1 features2
    let strategic_sim := E.calculate_strategic_similarity features1 features2
    let match_type := MatchingEngine.determine_match_type features1 features2 industry_sim
    let weights := if match_type = "horizontal" then horizontal_weights else vertical_weights
    let match_score :=
      industry_sim * weights.industry +
      business_sim * weights.business +
      geographic_sim * weights.geographic +
      size_sim * weights.size +
      strategic_sim * weights.strategic
    (min match_score 1, match_type)
  | _, _ => (0, "unknown")

/-- `MatchingEngine._get_similarity_factors`: re-extracts the features and
re-invokes the five scorers; it has no exception handler of its own, so an
extraction failure propagates. -/
def MatchingEngine.get_similarity_factors (E : MatchingEngine)
    (company1 company2 : CompanyRecord) : Except Unit SimilarityFactors := do
  let features1 ← E.extract_matching_features company1
  let features2 ← E.extract_matching_features company2
  Except.ok
    { industry_similarity := MatchingEngine.calculate_industry_similarity features1 features2
      business_similarity := E.calculate_business_similarity features1 features2
      geographic_similarity := MatchingEngine.calculate_geographic_similarity features1 features2
      size_similarity := MatchingEngine.calculate_size_similarity features1 features2
      strategic_similarity := E.calculate_strategic_similarity features1 features2 }

/-- Descending order on match scores used by the final `matches.sort`. -/
def matchRel (a b : Match) : Prop := b.match_score ≤ a.match_score

instance : DecidableRel matchRel := fun a b =>
  inferInstanceAs (Decidable (b.match_score ≤ a.match_score))

instance : IsTotal Match matchRel :=
  ⟨fun a b => le_total b.match_score a.match_score⟩

instance : IsTrans Match matchRel :=
  ⟨fun _ _ _ h1 h2 => le_trans h2 h1⟩

/-- The candidate loop of `find_matches`, with the accumulated match list
made explicit.  A `_get_similarity_factors` failure propagates out of the
loop (there is no per-candidate handler around it). -/
def MatchingEngine.find_matches_loop (E : MatchingEngine) (user_company : CompanyRecord) :
    List CompanyRecord → List Match → Except Unit (List Match)
  | [], ms => Except.ok ms
  | candidate :: rest, ms =>
    if user_company.company_id = candidate.company_id ∨
        user_company.company_name = candidate.company_name then
      E.find_matches_loop user_company rest ms
    else
      let scored := E.calculate_match_score user_company candidate
      if E.min_match_score ≤ scored.1 then
        match E.get_similarity_factors user_company candidate with
        | Except.error e => Except.error e
        | Except.ok factors =>
          E.find_matches_loop user_company rest
            (ms ++ [{ candidate_company := candidate,
                      match_score := scored.1,
                      match_type := scored.2,
                      similarity_factors := factors }])
      else E.find_matches_loop user_company rest ms

/-- The body of the `try` block of `find_matches`: empty-candidate early
return, candidate loop, stable descending sort, truncation. -/
def MatchingEngine.find_matches_inner (E : MatchingEngine) (user_company : CompanyRecord)
    (candidate_companies : List CompanyRecord) : Except Unit (List Match) :=
  if candidate_companies.isEmpty then Except.ok []
  else do
    let ms ← E.find_matches_loop user_company candidate_companies []
    Except.ok ((List.insertionSort matchRel ms).take E.max_matches)

/-- The `except` handler of `find_matches`: any exception is reported and an
empty list returned. -/
def exceptToEmpty (r : Except Unit (List Match)) : List Match :=
  match r with
  | Except.ok l => l
  | Except.error _ => []

/-- `MatchingEngine.find_matches`. -/
def MatchingEngine.find_matches (E : MatchingEngine) (user_company : CompanyRecord)
    (candidate_companies : List CompanyRecord) : List Match :=
  exceptToEmpty (E.find_matches_inner user_company candidate_companies)

/-- The uniform importance distribution returned for short match lists. -/
def uniform_importance : List (String × ℚ) :=
  [("industry_importance", 1/5), ("business_importance", 1/5),
   ("geographic_importance", 1/5), ("size_importance", 1/5),
   ("strategic_importance", 1/5)]

/-- The row of factor values collected per match by
`get_feature_importance`. -/
def SimilarityFactors.row (f : SimilarityFactors) : List ℚ :=
  [f.industry_similarity, f.business_similarity, f.geographic_similarity,
   f.size_similarity, f.strategic_similarity]

/-- `MatchingEngine.get_feature_importance`: empty input returns the empty
dict; fewer than two matches return the hard-coded uniform distribution;
otherwise per-axis absolute correlations are normalised to sum to one. -/
def MatchingEngine.get_feature_importance (E : MatchingEngine)
    (ms : List Match) : List (String × ℚ) :=
  if ms.isEmpty then []
  else
    let factors_data := ms.map (fun m => m.similarity_factors.row)
    let scores := ms.map (fun m => m.match_score)
    if factors_data.length < 2 then
      [("industry_importance", 1/5), ("business_importance", 1/5),
       ("geographic_importance", 1/5), ("size_importance", 1/5),
       ("strategic_importance", 1/5)]
    else
      let correlations := (List.range 5).map
        (fun i => E.corr_abs (factors_data.map (fun row => row.getD i 0)) scores)
      let total_corr := correlations.sum
      let normalized :=
        if 0 < total_corr then correlations.map (fun c => c / total_corr)
        else [1/5, 1/5, 1/5, 1/5, 1/5]
      [("industry_importance", normalized.getD 0 0),
       ("business_importance", normalized.getD 1 0),
       ("geographic_importance", normalized.getD 2 0),
       ("size_importance", normalized.getD 3 0),
       ("strategic_importance", normalized.getD 4 0)]

/-- The weighted recombination of retained similarity factors under the
weight table selected by a match type (the expression of
`_calculate_match_score` applied to stored factors). -/
def weighted_sum (match_type : String) (f : SimilarityFactors) : ℚ :=
  let w := if match_type = "horizontal" then horizontal_weights else vertical_weights
  f.industry_similarity * w.industry +
  f.business_similarity * w.business +
  f.geographic_similarity * w.geographic +
  f.size_similarity * w.size +
  f.strategic_similarity * w.strategic

/-- A concrete engine used to evaluate the theorems on sample inputs: the
default configuration constants, a `json_loads` that always parses to a
non-list value, and constant models of the two text/statistics
collaborators. -/
def sampleEngine : MatchingEngine :=
  { json_loads := fun _ => some none,
    tfidf_cosine := fun _ _ => 1/2,
    corr_abs := fun _ _ => 0 }

/-- The source company of the spec scenario (markets in the persisted
comma-joined string shape). -/
def techSource : CompanyRecord :=
  { company_id := some 1, company_name := some "Alpha Corp",
    industry_classification := some "Technology",
    revenue := some 1000000, employee_count := some 50,
    geographic_markets := some (StrOrList.str "USA") }

/-- The candidate company of the spec scenario: identical profile, different
name, revenue 1 200 000. -/
def techCandidate : CompanyRecord :=
  { company_id := some 2, company_name := some "Beta Corp",
    industry_classification := some "Technology",
    revenue := some 1200000, employee_count := some 50,
    geographic_markets := some (StrOrList.str "USA") }

/-- The scenario source with `geographic_markets` supplied as a Python list,
the shape produced by the document-extraction collaborator. -/
def techSourceListMarkets : CompanyRecord :=
  { techSource with geographic_markets := some (StrOrList.list ["USA"]) }

/-- The scenario candidate with list-shaped `geographic_markets`. -/
def techCandidateListMarkets : CompanyRecord :=
  { techCandidate with geographic_markets := some (StrOrList.list ["USA"]) }

/-- A record whose feature extraction raises: a non-empty list-valued
`geographic_markets` hits `.split(',')` on a list. -/
def listMarketsRecord : CompanyRecord :=
  { company_name := some "Gamma Corp",
    geographic_markets := some (StrOrList.list ["USA"]) }

/-- The normalized features of `techSource`. -/
def techSourceFeatures : MatchingFeatures :=
  { company_name := "Alpha Corp", industry := "Technology",
    revenue := 1000000, employee_count := 50, geographic_markets := ["USA"] }

/-- The normalized features of `techCandidate`. -/
def techCandidateFeatures : MatchingFeatures :=
  { company_name := "Beta Corp", industry := "Technology",
    revenue := 1200000, employee_count := 50, geographic_markets := ["USA"] }

/-- The single match produced by `sampleEngine` for the scenario pair. -/
def sampleMatch : Match :=
  { candidate_company := techCandidate,
    match_score := 19/24,
    match_type := "horizontal",
    similarity_factors :=
      { industry_similarity := 1, business_similarity := 1/2,
        geographic_similarity := 1, size_similarity := 11/12,
        strategic_similarity := 1/2 } }

/-- Feature records exercising the geographic scorer. -/
def usFeatures : MatchingFeatures := { geographic_markets := ["USA"] }

/-- Markets USA and UK. -/
def usukFeatures : MatchingFeatures := { geographic_markets := ["USA", "UK"] }

/-- Markets Germany only. -/
def deFeatures : MatchingFeatures := { geographic_markets := ["Germany"] }

/-- A feature record with every field at its default. -/
def emptyFeatures : MatchingFeatures := {}

/-- Features with a lower-case industry, for the industry-similarity
witness. -/
def techFeatures : MatchingFeatures := { industry := "technology" }

/-- What being an element of a `find_matches` result implies about how the
element was built: its score and type come from `_calculate_match_score` on
the stored candidate, its factors from `_get_similarity_factors`, and it
passed the threshold. -/
def ScoredFrom (E : MatchingEngine) (u : CompanyRecord) (m : Match) : Prop :=
  m.match_score = (E.calculate_match_score u m.candidate_company).1 ∧
  m.match_type = (E.calculate_match_score u m.candidate_company).2 ∧
  E.get_similarity_factors u m.candidate_company = Except.ok m.similarity_factors ∧
  E.min_match_score ≤ m.match_score

theorem find_matches_loop_mem (E : MatchingEngine) (u : CompanyRecord) :
    ∀ (cands : List CompanyRecord) (acc out : List Match),
      E.find_matches_loop u cands acc = Except.ok out →
      ∀ m ∈ out, m ∈ acc ∨ ScoredFrom E u m := by
  intro cands
  induction cands with
  | nil =>
    intro acc out h m hm
    simp only [MatchingEngine.find_matches_loop] at h
    cases h
    exact Or.inl hm
  | cons candidate rest ih =>
    intro acc out h m hm
    simp only [MatchingEngine.find_matches_loop] at h
    split at h
    · exact ih acc out h m hm
    · split at h
      · rename_i hmin
        cases hg : E.get_similarity_factors u candidate with
        | error e => rw [hg] at h; cases h
        | ok factors =>
          rw [hg] at h
          rcases ih _ out h m hm with hacc | hsc
          · rcases List.mem_append.mp hacc with h1 | h2
            · exact Or.inl h1
            · right
              rcases List.mem_singleton.mp h2 with rfl
              exact ⟨rfl, rfl, hg, hmin⟩
          · exact Or.inr hsc
      · exact ih acc out h m hm

theorem mem_find_matches (E : MatchingEngine) (u : CompanyRecord)
    (cands : List CompanyRecord) (m : Match)
    (h : m ∈ E.find_matches u cands) : ScoredFrom E u m := by
  unfold MatchingEngine.find_matches at h
  cases hinner : E.find_matches_inner u cands with
  | error e => rw [hinner] at h; simp [exceptToEmpty] at h
  | ok l =>
    rw [hinner] at h
    simp only [exceptToEmpty] at h
    unfold MatchingEngine.find_matches_inner at hinner
    split at hinner
    · cases hinner
      simp at h
    · cases hl : E.find_matches_loop u cands [] with
      | error e =>
        rw [hl] at hinner
        simp only [bind, Except.bind] at hinner
        cases hinner
      | ok ms =>
        rw [hl] at hinner
        simp only [bind, Except.bind] at hinner
        cases hinner
        have hmem : m ∈ List.insertionSort matchRel ms :=
          List.take_subset _ _ h
        have hms : m ∈ ms := (List.mem_insertionSort matchRel).mp hmem
        rcases find_matches_loop_mem E u cands [] ms hl m hms with hc | hs
        · cases hc
        · exact hs

/-- Full characterization of a returned match: both feature extractions
succeeded, the retained factors are the five scorer outputs, the type is the
classification of the computed industry similarity, and the score is the
clamped weighted recombination of the retained factors. -/
theorem mem_find_matches_spec (E : MatchingEngine) (u : CompanyRecord)
    (cands : List CompanyRecord) (m : Match) (h : m ∈ E.find_matches u cands) :
    ∃ f1 f2,
      E.extract_matching_features u = Except.ok f1 ∧
      E.extract_matching_features m.candidate_company = Except.ok f2 ∧
      m.similarity_factors =
        { industry_similarity := MatchingEngine.calculate_industry_similarity f1 f2,
          business_similarity := E.calculate_business_similarity f1 f2,
          geographic_similarity := MatchingEngine.calculate_geographic_similarity f1 f2,
          size_similarity := MatchingEngine.calculate_size_similarity f1 f2,
          strategic_similarity := E.calculate_strategic_similarity f1 f2 } ∧
      m.match_type = MatchingEngine.determine_match_type f1 f2
        (MatchingEngine.calculate_industry_similarity f1 f2) ∧
      m.match_score = min (weighted_sum m.match_type m.similarity_factors) 1 ∧
      E.min_match_score ≤ m.match_score := by
  obtain ⟨hscore, htype, hfac, hmin⟩ := mem_find_matches E u cands m h
  cases hu : E.extract_matching_features u with
  | error e =>
    unfold MatchingEngine.get_similarity_factors at hfac
    rw [hu] at hfac
    simp [bind, Except.bind] at hfac
  | ok f1 =>
    cases hc : E.extract_matching_features m.candidate_company with
    | error e =>
      unfold MatchingEngine.get_similarity_factors at hfac
      rw [hu, hc] at hfac
      simp [bind, Except.bind] at hfac
    | ok f2 =>
      have hfac' : m.similarity_factors =
          { industry_similarity := MatchingEngine.calculate_industry_similarity f1 f2,
            business_similarity := E.calculate_business_similarity f1 f2,
            geographic_similarity := MatchingEngine.calculate_geographic_similarity f1 f2,
            size_similarity := MatchingEngine.calculate_size_similarity f1 f2,
            strategic_similarity := E.calculate_strategic_similarity f1 f2 } := by
        unfold MatchingEngine.get_similarity_factors at hfac
        rw [hu, hc] at hfac
        simp only [bind, Except.bind, Except.ok.injEq] at hfac
        exact hfac.symm
      have hcalc : E.calculate_match_score u m.candidate_company =
          (min (weighted_sum (MatchingEngine.determine_match_type f1 f2
              (MatchingEngine.calculate_industry_similarity f1 f2))
            { industry_similarity := MatchingEngine.calculate_industry_similarity f1 f2,
              business_similarity := E.calculate_business_similarity f1 f2,
              geographic_similarity := MatchingEngine.calculate_geographic_similarity f1 f2,
              size_similarity := MatchingEngine.calculate_size_similarity f1 f2,
              strategic_similarity := E.calculate_strategic_similarity f1 f2 }) 1,
           MatchingEngine.determine_match_type f1 f2
              (MatchingEngine.calculate_industry_similarity f1 f2)) := by
        unfold MatchingEngine.calculate_match_score weighted_sum
        rw [hu, hc]
      have htype' : m.match_type = MatchingEngine.determine_match_type f1 f2
          (MatchingEngine.calculate_industry_similarity f1 f2) := by
        rw [htype, hcalc]
      refine ⟨f1, f2, rfl, rfl, hfac', htype', ?_, hmin⟩
      rw [hscore, hcalc, ← htype', ← hfac']

section ConcreteEvaluation

attribute [local semireducible] Rat.add Rat.mul Rat.inv Rat.sub

theorem find_matches_length_le (E : MatchingEngine) (u : CompanyRecord)
    (cands : List CompanyRecord) :
    (E.find_matches u cands).length ≤ E.max_matches := by
  unfold MatchingEngine.find_matches MatchingEngine.find_matches_inner
  split
  · simp [exceptToEmpty]
  · cases hl : E.find_matches_loop u cands [] with
    | error e => simp [exceptToEmpty, bind, Except.bind]
    | ok ms =>
      simp only [exceptToEmpty, bind, Except.bind]
      exact List.length_take_le _ _

theorem find_matches_sorted (E : MatchingEngine) (u : CompanyRecord)
    (cands : List CompanyRecord) :
    List.Sorted matchRel (E.find_matches u cands) := by
  unfold MatchingEngine.find_matches MatchingEngine.find_matches_inner
  split
  · simp [exceptToEmpty]
  · cases hl : E.find_matches_loop u cands [] with
    | error e => simp [exceptToEmpty, bind, Except.bind]
    | ok ms =>
      simp only [exceptToEmpty, bind, Except.bind]
      exact (List.sorted_insertionSort matchRel ms).sublist (List.take_sublist _ _)

/-- C1: every match returned by `find_matches` has a score at least the
configured minimum score (default 3/10), the result has at most the
configured maximum number of entries (default 50), and it is sorted in
descending order of match score. -/
theorem find_matches_threshold_count_sorted :
    (∀ (E : MatchingEngine) (u : CompanyRecord) (cands : List CompanyRecord) (m : Match),
        m ∈ E.find_matches u cands → E.min_match_score ≤ m.match_score) ∧
    (∀ (E : MatchingEngine) (u : CompanyRecord) (cands : List CompanyRecord),
        (E.find_matches u cands).length ≤ E.max_matches) ∧
    (∀ (E : MatchingEngine) (u : CompanyRecord) (cands : List CompanyRecord),
        List.Sorted matchRel (E.find_matches u cands)) :=
  ⟨fun E u cands m h => (mem_find_matches E u cands m h).2.2.2,
   find_matches_length_le, find_matches_sorted⟩

/-- C1 witness: the theorem evaluated on the scenario pair under the default
configuration. -/
theorem find_matches_threshold_count_sorted_witness :
    sampleEngine.min_match_score ≤ sampleMatch.match_score ∧
    (sampleEngine.find_matches techSource [techCandidate]).length ≤ sampleEngine.max_matches ∧
    List.Sorted matchRel (sampleEngine.find_matches techSource [techCandidate]) :=
  ⟨find_matches_threshold_count_sorted.1 sampleEngine techSource [techCandidate] sampleMatch
      (by decide),
   find_matches_threshold_count_sorted.2.1 sampleEngine techSource [techCandidate],
   find_matches_threshold_count_sorted.2.2 sampleEngine techSource [techCandidate]⟩

/-- C2: geographic similarity is the Jaccard ratio of the lower-cased,
trimmed market sets when they intersect, 7/10 when both are non-empty but
disjoint, and 1/2 when either is empty. -/
theorem geographic_similarity_cases (f1 f2 : MatchingFeatures) :
    (((marketSet f1.geographic_markets).filter
        (fun m => (marketSet f2.geographic_markets).contains m)).length ≠ 0 →
      MatchingEngine.calculate_geographic_similarity f1 f2 =
        (((marketSet f1.geographic_markets).filter
            (fun m => (marketSet f2.geographic_markets).contains m)).length : ℚ) /
          (((marketSet f1.geographic_markets ++ marketSet f2.geographic_markets).dedup).length : ℚ)) ∧
    (marketSet f1.geographic_markets ≠ [] → marketSet f2.geographic_markets ≠ [] →
      ((marketSet f1.geographic_markets).filter
        (fun m => (marketSet f2.geographic_markets).contains m)).length = 0 →
      MatchingEngine.calculate_geographic_similarity f1 f2 = 7/10) ∧
    (marketSet f1.geographic_markets = [] ∨ marketSet f2.geographic_markets = [] →
      MatchingEngine.calculate_geographic_similarity f1 f2 = 1/2) := by
  refine ⟨?_, ?_, ?_⟩
  · intro hinter
    have h1 : marketSet f1.geographic_markets ≠ [] := by
      intro h
      rw [h] at hinter
      simp at hinter
    have h2 : marketSet f2.geographic_markets ≠ [] := by
      intro h
      rw [h] at hinter
      simp at hinter
    have hunion : ((marketSet f1.geographic_markets ++
        marketSet f2.geographic_markets).dedup).length ≠ 0 := by
      intro h
      rw [List.length_eq_zero, List.dedup_eq_nil, List.append_eq_nil] at h
      exact h1 h.1
    simp only [MatchingEngine.calculate_geographic_similarity, h1, h2, hinter, hunion,
      or_self, if_false, false_and, ite_false]
  · intro h1 h2 hinter
    have hlen1 : 0 < (marketSet f1.geographic_markets).length :=
      List.length_pos.mpr h1
    have hlen2 : 0 < (marketSet f2.geographic_markets).length :=
      List.length_pos.mpr h2
    simp only [MatchingEngine.calculate_geographic_similarity]
    split
    · rename_i hor
      exact absurd hor (by simp [h1, h2])
    · split
      · rename_i hz
        rw [List.length_eq_zero, List.dedup_eq_nil, List.append_eq_nil] at hz
        exact absurd hz.1 h1
      · split
        · rfl
        · rename_i hc
          exact absurd ⟨hinter, hlen1, hlen2⟩ hc
  · intro h
    simp only [MatchingEngine.calculate_geographic_similarity]
    split
    · rfl
    · rename_i hor
      exact absurd h hor

/-- C2 witness: the three cases of the theorem evaluated on concrete market
sets (overlap USA vs USA-UK, disjoint USA vs Germany, one side empty). -/
theorem geographic_similarity_cases_witness :
    MatchingEngine.calculate_geographic_similarity usFeatures usukFeatures = 1/2 ∧
    MatchingEngine.calculate_geographic_similarity usFeatures deFeatures = 7/10 ∧
    MatchingEngine.calculate_geographic_similarity emptyFeatures usFeatures = 1/2 :=
  ⟨by rw [(geographic_similarity_cases usFeatures usukFeatures).1 (by decide)]; decide,
   (geographic_similarity_cases usFeatures deFeatures).2.1 (by decide) (by decide) (by decide),
   (geographic_similarity_cases emptyFeatures usFeatures).2.2 (Or.inl (by decide))⟩

/-- C3: the classifier labels a pair horizontal exactly when the computed
industry similarity is at least 7/10 (boundary included), and every returned
match is labelled horizontal or vertical. -/
theorem match_type_policy :
    (∀ (f1 f2 : MatchingFeatures) (isim : ℚ),
        MatchingEngine.determine_match_type f1 f2 isim = "horizontal" ↔ 7/10 ≤ isim) ∧
    (∀ (E : MatchingEngine) (u : CompanyRecord) (cands : List CompanyRecord) (m : Match),
        m ∈ E.find_matches u cands →
          (m.match_type = "horizontal" ∨ m.match_type = "vertical") ∧
          ∀ f1 f2, E.extract_matching_features u = Except.ok f1 →
            E.extract_matching_features m.candidate_company = Except.ok f2 →
            (m.match_type = "horizontal" ↔
              7/10 ≤ MatchingEngine.calculate_industry_similarity f1 f2)) := by
  have hdet : ∀ (f1 f2 : MatchingFeatures) (isim : ℚ),
      MatchingEngine.determine_match_type f1 f2 isim = "horizontal" ↔ 7/10 ≤ isim := by
    intro f1 f2 isim
    unfold MatchingEngine.determine_match_type
    split
    · rename_i hge
      exact ⟨fun _ => hge, fun _ => rfl⟩
    · rename_i hlt
      refine ⟨fun h => absurd h (by decide), fun h => absurd h hlt⟩
  refine ⟨hdet, ?_⟩
  intro E u cands m h
  obtain ⟨f1', f2', hu', hc', _, htype, _, _⟩ := mem_find_matches_spec E u cands m h
  constructor
  · rw [htype]
    unfold MatchingEngine.determine_match_type
    split
    · exact Or.inl rfl
    · exact Or.inr rfl
  · intro f1 f2 hu hc
    rw [hu'] at hu
    rw [hc'] at hc
    cases hu
    cases hc
    rw [htype]
    exact hdet f1' f2' _

/-- C3 witness: the classifier boundary at the scenario pair, and the
membership consequences for the concrete returned match. -/
theorem match_type_policy_witness :
    (MatchingEngine.determine_match_type techSourceFeatures techCandidateFeatures 1 =
        "horizontal" ↔ (7 : ℚ)/10 ≤ 1) ∧
    (sampleMatch.match_type = "horizontal" ∨ sampleMatch.match_type = "vertical") ∧
    (sampleMatch.match_type = "horizontal" ↔
      7/10 ≤ MatchingEngine.calculate_industry_similarity techSourceFeatures
        techCandidateFeatures) :=
  ⟨match_type_policy.1 techSourceFeatures techCandidateFeatures 1,
   (match_type_policy.2 sampleEngine techSource [techCandidate] sampleMatch (by decide)).1,
   (match_type_policy.2 sampleEngine techSource [techCandidate] sampleMatch (by decide)).2
     techSourceFeatures techCandidateFeatures (by decide) (by decide)⟩


/-- C4: the feature normalizer is not total: at a record whose
`geographic_markets` field is the non-empty list `["USA"]`, the Python code
calls `.split(',')` on a list and raises `AttributeError` instead of
returning a defaulted `MatchingFeatures` record (the unguarded `json.loads`
of a malformed string-typed `financial_metrics` raises likewise). -/
theorem extract_features_raises_on_list_markets :
    sampleEngine.extract_matching_features listMarketsRecord = Except.error () := by decide

/-- C5: the revenue parser evaluated at the claimed example: `"$1.5M"`
becomes `"1.5000000"` under the textual suffix substitution and parses to
3/2 = 1.5, not the claimed 1 500 000; the substitution agrees with the claim
only for amounts without a fractional part, as in `"$15M"`. -/
theorem extract_revenue_decimal_suffix :
    MatchingEngine.extract_revenue { amount := some (AmountVal.str "$1.5M") } = 3/2 ∧
    ((3 : ℚ)/2) ≠ 1500000 ∧
    MatchingEngine.extract_revenue { amount := some (AmountVal.str "$15M") } = 15000000 :=
  ⟨by decide, by decide, by decide⟩

theorem calculate_match_score_of_extract_error (E : MatchingEngine) (u c : CompanyRecord)
    (herr : E.extract_matching_features c = Except.error ()) :
    E.calculate_match_score u c = (0, "unknown") := by
  unfold MatchingEngine.calculate_match_score
  rw [herr]
  cases E.extract_matching_features u with
  | error e => rfl
  | ok f => rfl

theorem find_matches_loop_drop_err (E : MatchingEngine) (u c : CompanyRecord)
    (hmin : 0 < E.min_match_score) (herr : E.extract_matching_features c = Except.error ()) :
    ∀ (l1 l2 : List CompanyRecord) (acc : List Match),
      E.find_matches_loop u (l1 ++ c :: l2) acc = E.find_matches_loop u (l1 ++ l2) acc := by
  intro l1
  induction l1 with
  | nil =>
    intro l2 acc
    have hsc : ¬ E.min_match_score ≤ (E.calculate_match_score u c).1 := by
      rw [calculate_match_score_of_extract_error E u c herr]
      exact not_le.mpr hmin
    show E.find_matches_loop u (c :: l2) acc = E.find_matches_loop u l2 acc
    by_cases hskip : u.company_id = c.company_id ∨ u.company_name = c.company_name
    · simp only [MatchingEngine.find_matches_loop, if_pos hskip]
    · simp only [MatchingEngine.find_matches_loop, if_neg hskip, if_neg hsc]
  | cons x xs ih =>
    intro l2 acc
    show E.find_matches_loop u (x :: (xs ++ c :: l2)) acc =
      E.find_matches_loop u (x :: (xs ++ l2)) acc
    by_cases hskip : u.company_id = x.company_id ∨ u.company_name = x.company_name
    · simp only [MatchingEngine.find_matches_loop, if_pos hskip]
      exact ih l2 acc
    · by_cases hsc : E.min_match_score ≤ (E.calculate_match_score u x).1
      · simp only [MatchingEngine.find_matches_loop, if_neg hskip, if_pos hsc]
        cases hg : E.get_similarity_factors u x with
        | error e => rfl
        | ok factors => exact ih l2 _
      · simp only [MatchingEngine.find_matches_loop, if_neg hskip, if_neg hsc]
        exact ih l2 acc

theorem find_matches_drop_err (E : MatchingEngine) (u : CompanyRecord)
    (l1 l2 : List CompanyRecord) (c : CompanyRecord)
    (hmin : 0 < E.min_match_score)
    (herr : E.extract_matching_features c = Except.error ()) :
    E.find_matches u (l1 ++ c :: l2) = E.find_matches u (l1 ++ l2) := by
  have hloop := find_matches_loop_drop_err E u c hmin herr l1 l2 []
  unfold MatchingEngine.find_matches MatchingEngine.find_matches_inner
  have hne : (l1 ++ c :: l2).isEmpty = false := by
    simp
  rw [hne]
  cases h2 : (l1 ++ l2).isEmpty with
  | true =>
    have hnil : l1 ++ l2 = [] := by
      simpa using h2
    rw [hloop, hnil]
    simp [MatchingEngine.find_matches_loop, exceptToEmpty, bind, Except.bind]
  | false =>
    rw [hloop]

/-- C6: an extraction failure for one candidate does not abort the batch —
`find_matches` returns exactly the matches of the remaining candidates
(the failed candidate scores 0.0 and is filtered out) — and the top-level
exception handler of `find_matches` turns any whole-call failure into the
empty list. -/
theorem scoring_failure_containment :
    (∀ (E : MatchingEngine) (u : CompanyRecord) (l1 l2 : List CompanyRecord)
        (c : CompanyRecord),
        0 < E.min_match_score →
        E.extract_matching_features c = Except.error () →
        E.find_matches u (l1 ++ c :: l2) = E.find_matches u (l1 ++ l2)) ∧
    (∀ e : Unit, exceptToEmpty (Except.error e) = []) :=
  ⟨fun E u l1 l2 c hmin herr => find_matches_drop_err E u l1 l2 c hmin herr,
   fun _ => rfl⟩

/-- C6 witness: a crashing candidate inserted in front of the scenario
candidate leaves the result unchanged, and the handler maps a raised error
to the empty list. -/
theorem scoring_failure_containment_witness :
    sampleEngine.find_matches techSource [listMarketsRecord, techCandidate] =
      sampleEngine.find_matches techSource [techCandidate] ∧
    exceptToEmpty (Except.error ()) = [] :=
  ⟨by
    have h := scoring_failure_containment.1 sampleEngine techSource [] [techCandidate]
      listMarketsRecord (by decide) (by decide)
    simpa using h,
   scoring_failure_containment.2 ()⟩

/-- C7 counterexample: on the empty match list the diagnostic returns the
empty mapping, not the uniform 0.2 distribution the claim asserts. -/
theorem feature_importance_empty_counterexample :
    sampleEngine.get_feature_importance [] = [] ∧
    ([] : List (String × ℚ)) ≠ uniform_importance :=
  ⟨rfl, by decide⟩

/-- C7 (amended): a one-element match list yields the uniform 0.2
distribution over the five axes; the empty list yields the empty mapping
instead. -/
theorem feature_importance_short_lists :
    (∀ (E : MatchingEngine) (m : Match),
        E.get_feature_importance [m] = uniform_importance) ∧
    (∀ E : MatchingEngine, E.get_feature_importance [] = []) := by
  constructor
  · intro E m
    rfl
  · intro E
    rfl

/-- C7 witness: the amended behavior evaluated at a concrete one-element
list and at the empty list. -/
theorem feature_importance_short_lists_witness :
    sampleEngine.get_feature_importance [sampleMatch] = uniform_importance ∧
    sampleEngine.get_feature_importance [] = [] :=
  ⟨feature_importance_short_lists.1 sampleEngine sampleMatch,
   feature_importance_short_lists.2 sampleEngine⟩

theorem pyLower_ne_empty (i : String) (h : i ≠ "") : pyLower i ≠ "" := by
  intro hc
  apply h
  have hdata : i.data.map Char.toLower = [] := congrArg String.data hc
  have hnil : i.data = [] := List.map_eq_nil_iff.mp hdata
  cases i with
  | mk data =>
    subst hnil
    decide

/-- C8 counterexample: the empty industry string compared with itself scores
the neutral 1/2, not 1. -/
theorem industry_similarity_empty_self :
    MatchingEngine.calculate_industry_similarity emptyFeatures emptyFeatures ≠ 1 := by decide

/-- C8 (amended): for every non-empty industry string, industry similarity
of the string with itself is 1 (comparison is performed on the lower-cased
strings). -/
theorem industry_self_similarity (i : String) (f1 f2 : MatchingFeatures)
    (hne : i ≠ "") (h1 : f1.industry = i) (h2 : f2.industry = i) :
    MatchingEngine.calculate_industry_similarity f1 f2 = 1 := by
  unfold MatchingEngine.calculate_industry_similarity
  rw [h1, h2]
  simp [pyLower_ne_empty i hne]

/-- C8 witness: the amended theorem applied to a concrete non-empty
industry. -/
theorem industry_self_similarity_witness :
    MatchingEngine.calculate_industry_similarity techFeatures techFeatures = 1 :=
  industry_self_similarity "technology" techFeatures techFeatures (by decide) rfl rfl

/-- C9: the scenario pair evaluated.  With `geographic_markets` supplied as
the list `["USA"]` (as written in the claim) extraction raises, the handler
in `_calculate_match_score` returns `(0.0, 'unknown')`, and no horizontal
match with score above 0.3 is produced.  With the markets supplied in the
persisted comma-joined string shape the pair behaves exactly as the claim
describes: industry similarity 1, size similarity 11/12, type horizontal,
score 19/24 > 3/10. -/
theorem scenario_technology_pair :
    sampleEngine.calculate_match_score techSourceListMarkets techCandidateListMarkets =
      (0, "unknown") ∧
    sampleEngine.calculate_match_score techSource techCandidate = (19/24, "horizontal") ∧
    sampleEngine.get_similarity_factors techSource techCandidate =
      Except.ok { industry_similarity := 1, business_similarity := 1/2,
                  geographic_similarity := 1, size_similarity := 11/12,
                  strategic_similarity := 1/2 } ∧
    (3 : ℚ)/10 < (sampleEngine.calculate_match_score techSource techCandidate).1 :=
  ⟨by decide, by decide, by decide, by decide⟩

/-- C10: every returned match's score is reproduced exactly by recombining
its retained similarity factors with the weight table selected by its match
type, clamped at 1. -/
theorem similarity_factors_reproduce_score :
    ∀ (E : MatchingEngine) (u : CompanyRecord) (cands : List CompanyRecord) (m : Match),
      m ∈ E.find_matches u cands →
      m.match_score = min (weighted_sum m.match_type m.similarity_factors) 1 := by
  intro E u cands m h
  obtain ⟨f1, f2, _, _, _, _, hscore, _⟩ := mem_find_matches_spec E u cands m h
  exact hscore

/-- C10 witness: the identity evaluated on the concrete returned match of
the scenario. -/
theorem similarity_factors_reproduce_score_witness :
    sampleMatch.match_score =
      min (weighted_sum sampleMatch.match_type sampleMatch.similarity_factors) 1 :=
  similarity_factors_reproduce_score sampleEngine techSource [techCandidate] sampleMatch
    (by decide)

end ConcreteEvaluation

end MergerBook
